import Mathlib

/-!
Shallow embedding of the Spark-Ai generation-orchestration layer
(`src/services/geminiService.ts`, the consistency-memory service, and the
relevant `App.tsx` response handler), together with theorems settling the
frozen claims about it.

Backend (network) calls are modelled by an explicit environment `Env` of
oracles describing the outcome of each possible gateway call; every embedded
operation additionally returns the list of gateway calls it performed, so
that statements such as "the secondary backend is never invoked" or "no
gateway call is made" are expressible.  JavaScript exceptions are modelled
by `Except JsError`; a caught-and-converted result is an `Except.error`
turned into an ordinary value by the catching function.
-/

set_option maxRecDepth 100000

namespace SparkAI

/-- JavaScript truthy-or-default on an optional string: `x || d` (an absent
or empty string falls back to the default). -/
def jsOr (o : Option String) (d : String) : String :=
  match o with
  | none => d
  | some s => if s = "" then d else s

/-- Case-sensitive list version of `String.startsWith` used by `containsL`. -/
def startsWithL : List Char → List Char → Bool
  | [], _ => true
  | _ :: _, [] => false
  | c :: cs, d :: ds => c == d && startsWithL cs ds

/-- Substring occurrence test on character lists. -/
def containsL (needle : List Char) : List Char → Bool
  | [] => needle.isEmpty
  | d :: ds => startsWithL needle (d :: ds) || containsL needle ds

/-- JavaScript `hay.includes(needle)`. -/
def strContains (hay needle : String) : Bool :=
  containsL needle.data hay.data

/-- Case-insensitive version of `startsWithL` (ASCII folding), used to model
a case-insensitive regular-expression match. -/
def startsWithCI : List Char → List Char → Bool
  | [], _ => true
  | _ :: _, [] => false
  | c :: cs, d :: ds => c.toLower == d.toLower && startsWithCI cs ds

/-- JavaScript regex word character class. -/
def isWordChar (c : Char) : Bool := c.isAlphanum || c == '_'

/-- Left word-boundary test for a match whose first character is a word
character: satisfied at the start of the string or after a non-word char. -/
def leftBoundary : Option Char → Bool
  | none => true
  | some c => !(isWordChar c)

/-- Right word-boundary test for a match whose last character is a word
character: satisfied at the end of the string or before a non-word char. -/
def rightBoundary : List Char → Bool
  | [] => true
  | c :: _ => !(isWordChar c)

/-- Fuel-driven worker modelling the global case-insensitive replacement of
a word-bounded term by the empty string (`new RegExp("\\b" ++ term ++ "\\b", "gi")`),
scanning left to right and resuming after each removed match.  The fuel is
always at least the length of the remaining character list, so the
fuel-exhausted branch is unreachable. -/
def stripWordFuel (term : List Char) : Nat → Option Char → List Char → List Char
  | 0, _, cs => cs
  | _ + 1, _, [] => []
  | fuel + 1, prev, c :: rest =>
    if term.length > 0 && startsWithCI term (c :: rest) && leftBoundary prev
        && rightBoundary (List.drop term.length (c :: rest)) then
      stripWordFuel term fuel ((c :: rest)[term.length - 1]?) (List.drop term.length (c :: rest))
    else
      c :: stripWordFuel term fuel (some c) rest

/-- Remove every word-bounded, case-insensitive occurrence of `term`. -/
def stripWord (term : List Char) (cs : List Char) : List Char :=
  stripWordFuel term cs.length none cs

/-- Replace each maximal whitespace run by a single space (`replace(/\s+/g, ' ')`). -/
def collapseWs : List Char → List Char
  | [] => []
  | c :: rest =>
    if c.isWhitespace then
      match rest with
      | [] => [' ']
      | c2 :: _ => if c2.isWhitespace then collapseWs rest else ' ' :: collapseWs rest
    else c :: collapseWs rest

/-- JavaScript `trim()` on a character list. -/
def trimWs (cs : List Char) : List Char :=
  ((cs.dropWhile Char.isWhitespace).reverse.dropWhile Char.isWhitespace).reverse

/-- ASCII lower-casing of a string. -/
def lowerStr (s : String) : String := String.mk (s.data.map Char.toLower)

/-- ASCII upper-casing of a string. -/
def upperStr (s : String) : String := String.mk (s.data.map Char.toUpper)

/-- Orientation and ratio keywords stripped from a raw generation prompt. -/
def resizeTerms : List String :=
  ["landscape", "portrait", "square", "1:1", "16:9", "9:16", "3:4", "4:3",
   "horizontal", "vertical", "wide", "tall", "panoramic"]

/-- Embedding of `cleanPromptForResize`: strips each orientation keyword at
word boundaries (case-insensitively), collapses whitespace and trims. -/
def cleanPromptForResize (prompt : String) : String :=
  if prompt = "" then ""
  else
    let cleaned := resizeTerms.foldl (fun acc t => String.mk (stripWord t.data acc.data)) prompt
    String.mk (trimWs (collapseWs cleaned.data))

/-- Subject keyword list of `createAdvancedResizePrompt` (first match wins). -/
def subjects : List String :=
  ["lion", "person", "animal", "character", "figure", "man", "woman", "robot",
   "cat", "dog", "boy", "girl"]

/-- Environment keyword list of `createAdvancedResizePrompt` (first match wins). -/
def environments : List String :=
  ["desert", "forest", "beach", "city", "room", "landscape", "mountain",
   "space", "office", "studio"]

/-- Style keyword list of `createAdvancedResizePrompt` (first match wins). -/
def styles : List String :=
  ["cinematic", "realistic", "cartoon", "painting", "digital art", "anime",
   "photorealistic", "sketch"]

/-- Main-subject detection over the lower-cased prompt. -/
def detectMainSubject (promptLower : String) : String :=
  (subjects.find? fun s => strContains promptLower s).getD "subject"

/-- Environment detection over the lower-cased prompt. -/
def detectEnvironment (promptLower : String) : String :=
  (environments.find? fun e => strContains promptLower e).getD "environment"

/-- Style detection over the lower-cased prompt. -/
def detectStyle (promptLower : String) : String :=
  (styles.find? fun s => strContains promptLower s).getD "realistic"

/-- Pixel-dimension text of the `switch (targetRatio)` in `createAdvancedResizePrompt`. -/
def ratioSizeInstructions (targetRatio : String) : String :=
  match targetRatio with
  | "1:1" => "1080x1080 pixels"
  | "9:16" => "1080x1920 pixels"
  | "16:9" => "1920x1080 pixels"
  | "3:4" => "1080x1440 pixels"
  | "4:3" => "1440x1080 pixels"
  | _ => "the requested aspect ratio"

/-- Composition-guidance block of the `switch (targetRatio)` in
`createAdvancedResizePrompt`; the 9:16 branch is the vertical-composition
guidance block. -/
def ratioGuidance (targetRatio mainSubject environment : String) : String :=
  match targetRatio with
  | "1:1" =>
      "\n            SQUARE COMPOSITION (1:1):\n            - Center the "
        ++ mainSubject
        ++ " perfectly\n            - Balanced framing from all sides\n            - Maintain equal spacing around subject\n            - Perfect for social media posts"
  | "9:16" =>
      "\n            VERTICAL PORTRAIT (9:16):\n            - Full-body or 3/4 view of "
        ++ mainSubject
        ++ "\n            - Tall, portrait-oriented framing\n            - More vertical space above and below\n            - Ideal for mobile stories and reels\n            - DO NOT put the image inside a phone screen"
  | "16:9" =>
      "\n            WIDE LANDSCAPE (16:9):\n            - Panoramic horizontal composition\n            - Show more of the "
        ++ environment
        ++ " background\n            - Wider field of view\n            - Perfect for banners and covers"
  | "3:4" =>
      "\n             VERTICAL PORTRAIT (3:4):\n             - Classic portrait composition\n             - Balanced vertical framing\n             - Ideal for classic photography"
  | "4:3" =>
      "\n             CLASSIC LANDSCAPE (4:3):\n             - Traditional photography composition\n             - Balanced horizontal framing"
  | _ => "Adapt composition for " ++ targetRatio ++ " aspect ratio"

/-- Consistency-commands block of `createAdvancedResizePrompt`. -/
def consistencyCommands (mainSubject environment style targetRatio : String) : String :=
  "\n    CRITICAL CONSISTENCY COMMANDS:\n    - IDENTICAL "
    ++ upperStr mainSubject
    ++ " APPEARANCE: Same face, body, features, colors\n    - EXACT SAME CLOTHING/STYLE: No changes to attire or accessories\n    - IDENTICAL BACKGROUND: Same "
    ++ environment
    ++ ", objects, lighting\n    - SAME ART STYLE: "
    ++ style
    ++ " style, quality, and details\n    - SAME LIGHTING: Identical light source, shadows, atmosphere\n    - PRESERVE ALL DETAILS: No alterations to character identity\n    \n    STRICT PROHIBITIONS:\n    - DO NOT change facial features\n    - DO NOT modify clothing or colors\n    - DO NOT alter background elements\n    - DO NOT change art style or quality\n    - DO NOT modify lighting conditions\n    - ABSOLUTELY NO FRAMES, NO BORDERS, NO BEZELS.\n    - DO NOT SHOW THE IMAGE ON A PHONE SCREEN OR DEVICE.\n    - The image must be FULL BLEED (extending to edges).\n    \n    ONLY ADJUST: Composition and framing for "
    ++ targetRatio
    ++ " aspect ratio"

/-- Embedding of `createAdvancedResizePrompt`: detects subject, environment
and style from fixed keyword lists over the lower-cased prompt and emits the
structured resize/generation instruction. -/
def createAdvancedResizePrompt (originalPrompt targetRatio : String) : String :=
  let promptLower := lowerStr originalPrompt
  let mainSubject := detectMainSubject promptLower
  let environment := detectEnvironment promptLower
  let style := detectStyle promptLower
  "\n    RESIZE TRANSFORMATION COMMAND:\n    \n    ORIGINAL SCENE: "
    ++ originalPrompt
    ++ "\n    \n    TARGET FORMAT: "
    ++ targetRatio
    ++ " aspect ratio ("
    ++ ratioSizeInstructions targetRatio
    ++ ")\n    \n    "
    ++ ratioGuidance targetRatio mainSubject environment
    ++ "\n    \n    "
    ++ consistencyCommands mainSubject environment style targetRatio
    ++ "\n    \n    OUTPUT: Generate the EXACT same scene and character, only recomposed for "
    ++ targetRatio
    ++ " aspect ratio.\n    Maintain pixel-perfect consistency of all visual elements. Do not include any text, watermarks, signatures, letters, or words in the image.\n    \n    CRITICAL: The output must be a raw, frameless image. Do not render a phone, tablet, or photo frame containing the image. The image content must fill the entire canvas edge-toedge."

/-- The synthesized prompt of the two-stage generation pipeline
(`executeGenerateImage` builds it once from the cleaned raw prompt). -/
def genFullPrompt (prompt aspectRatio : String) : String :=
  createAdvancedResizePrompt (cleanPromptForResize prompt) aspectRatio

example : cleanPromptForResize "a lion in the desert, landscape" = "a lion in the desert," := by decide

example : strContains (genFullPrompt "a lion in the desert, landscape" "9:16") "landscape" = false := by decide

/-- An image payload crossing the boundary: base64 data plus MIME type. -/
structure ImageBlob where
  data : String
  mimeType : String
deriving DecidableEq

/-- One part of a conversation content: a text part or an inline image part. -/
inductive Part where
  | text (s : String)
  | inlineData (blob : ImageBlob)
deriving DecidableEq

/-- One history entry: a role and its ordered parts. -/
structure Content where
  role : String
  parts : List Part
deriving DecidableEq

/-- The image carried by a part, if any (the `'inlineData' in part` test). -/
def partImage : Part → Option ImageBlob
  | .inlineData b => some b
  | .text _ => none

/-- Embedding of `findLastImage`: the last image attached to the current
turn when any is attached, otherwise the nested backward scan of history
contents and of each content's parts. -/
def findLastImage (history : List Content) (currentImages : List ImageBlob) : Option ImageBlob :=
  if currentImages.length > 0 then currentImages.getLast?
  else history.reverse.findSome? fun content => content.parts.reverse.findSome? partImage

/-- The most recent image part of a history, phrased as in the spec: flatten
all parts in order and take the last image part. -/
def mostRecentImagePart (history : List Content) : Option ImageBlob :=
  ((history.map Content.parts).flatten.reverse).findSome? partImage

/-- A JavaScript error value, reduced to the two projections the failure
classifier inspects: `error.message` and `JSON.stringify(error)`. -/
structure JsError where
  message : String
  jsonStr : String
deriving DecidableEq

/-- An error thrown by this code via `new Error(m)`: `JSON.stringify` of a
plain `Error` object is the empty object string. -/
def mkError (m : String) : JsError := ⟨m, "\x7b\x7d"⟩

/-- Embedding of `isQuotaError`: the message or the stringified error names
a 429 status, resource exhaustion, or (message only) the word quota. -/
def isQuotaError (e : JsError) : Bool :=
  strContains e.message "429" || strContains e.message "RESOURCE_EXHAUSTED"
    || strContains e.message "quota" || strContains e.jsonStr "429"
    || strContains e.jsonStr "RESOURCE_EXHAUSTED"

/-- Outcome of one backend call: a value or a thrown error. -/
inductive GwResult (α : Type) where
  | ok (val : α)
  | err (e : JsError)
deriving DecidableEq

/-- Response of a flash-image call: optional text plus the candidate parts. -/
structure FlashResp where
  text : Option String
  parts : List Part
deriving DecidableEq

/-- Arguments of a tool call; a field not supplied by the model is the empty
string (each schema marks its one parameter required). -/
structure ToolArgs where
  prompt : String := ""
  query : String := ""
  aspectRatio : String := ""
deriving DecidableEq

/-- A function call returned by the tool-selection completion. -/
structure ToolCall where
  name : String
  args : ToolArgs
deriving DecidableEq

/-- Response of the tool-selection completion: optional text plus the list
of function calls (an absent list is the empty list). -/
structure SelectOut where
  text : Option String
  functionCalls : List ToolCall
deriving DecidableEq

/-- A grounding source of a web search result. -/
structure GroundingSource where
  uri : String
  title : String
deriving DecidableEq

/-- Raw response of the search-grounded completion. -/
structure SearchRaw where
  text : Option String
  sources : Option (List GroundingSource)
deriving DecidableEq

/-- Oracle environment giving the outcome of every possible gateway call:
the tool-selection completion (keyed by the contents sent), the Imagen
image generation (keyed by prompt and aspect ratio), the flash-image
generation (keyed by the exact parts sent), the grounded search and the
deep-reasoning completion (keyed by query). -/
structure Env where
  toolSelect : List Content → GwResult SelectOut
  imagen : String → String → GwResult (Option String)
  flashImg : List Part → GwResult FlashResp
  search : String → GwResult SearchRaw
  complex : String → GwResult (Option String)

/-- A record of one gateway call actually performed. -/
inductive GwCall where
  | toolSelect (contents : List Content)
  | imagenGen (prompt aspectRatio : String)
  | flashImage (parts : List Part)
  | webSearch (query : String)
  | complexReason (query : String)
deriving DecidableEq

/-- Result of the two-stage image generation pipeline. -/
structure GenOut where
  image : String
deriving DecidableEq

/-- Result of an edit or reference-based generation: image, text, prompt. -/
structure ImgTextOut where
  image : String
  text : String
  prompt : String
deriving DecidableEq

/-- Result of the exported resize operation. -/
structure ResizeOut where
  image : String
  text : String
deriving DecidableEq

/-- Result of a web search. -/
structure SearchOut where
  text : String
  sources : Option (List GroundingSource)
deriving DecidableEq

/-- Result of a deep-reasoning query. -/
structure TextOut where
  text : String
deriving DecidableEq

/-- First inline image among response parts (the for-loop with break). -/
def firstInlineData (parts : List Part) : Option ImageBlob :=
  parts.findSome? partImage

/-- Re-add the presentation-layer data-URI header to image bytes. -/
def dataUri (b : ImageBlob) : String :=
  "data:" ++ b.mimeType ++ ";base64," ++ b.data

/-- Does a primary-attempt outcome fail to yield image bytes (an exception,
or a response with no `imageBytes`)? -/
def gwNoImage : GwResult (Option String) → Bool
  | .ok (some _) => false
  | .ok none => true
  | .err _ => true

/-- Embedding of `executeGenerateImage`: build the synthesized prompt once,
try the Imagen backend, on any failure try the flash-image backend with the
same prompt, classifying only the fallback failure. -/
def executeGenerateImage (prompt aspectRatio : String) (env : Env) :
    Except JsError GenOut × List GwCall :=
  let fullPrompt := genFullPrompt prompt aspectRatio
  match env.imagen fullPrompt aspectRatio with
  | .ok (some bytes) =>
      (.ok ⟨"data:image/png;base64," ++ bytes⟩, [.imagenGen fullPrompt aspectRatio])
  | _ =>
      let calls := [GwCall.imagenGen fullPrompt aspectRatio,
                    GwCall.flashImage [Part.text fullPrompt]]
      match env.flashImg [Part.text fullPrompt] with
      | .ok resp =>
          match firstInlineData resp.parts with
          | some b => (.ok ⟨dataUri b⟩, calls)
          | none => (.error (mkError "No image was generated."), calls)
      | .err e =>
          if isQuotaError e then
            (.error (mkError "Image generation quota exceeded. Please try again later."), calls)
          else
            (.error (mkError "Failed to generate image. Please try again."), calls)

/-- The identity-preserving edit instruction of `executeEditImage`. -/
def editPromptText (prompt : String) : String :=
  "You are an expert photo editor. Your most important and primary goal is to perfectly preserve the facial features, likeness, and identity of the person in the original image. This is a strict requirement. Now, edit the image based on the user\x27s instructions below. When changing the background, clothes, or pose, you MUST apply these changes to the original person without altering their face. User edit instructions: \""
    ++ prompt
    ++ "\". IMPORTANT: Do not add any frames, borders, or text to the image."

/-- Embedding of `executeEditImage`. -/
def executeEditImage (prompt : String) (image : ImageBlob) (env : Env) :
    Except JsError ImgTextOut × List GwCall :=
  let parts := [Part.inlineData image, Part.text (editPromptText prompt)]
  let calls := [GwCall.flashImage parts]
  match env.flashImg parts with
  | .ok resp =>
      match firstInlineData resp.parts with
      | some b =>
          (.ok ⟨dataUri b, jsOr resp.text "Here is your edited image.", prompt⟩, calls)
      | none =>
          (.ok ⟨"", jsOr resp.text "I was unable to edit the image as requested. Please try a different prompt.", prompt⟩, calls)
  | .err e =>
      if isQuotaError e then
        (.error (mkError "Usage limit exceeded for image editing. Please try again later."), calls)
      else
        (.error (mkError "Failed to edit image."), calls)

/-- The strict consistency instruction of `generateFromReference`. -/
def referencePromptText (prompt : String) : String :=
  "\n    Use the attached face reference.\n    Keep the face identical. Do not alter facial features.\n    "
    ++ prompt
    ++ "\n    \n    STRICT RULES AND GUIDELINES:\n    - Use the reference face images exactly. Do NOT alter the identity.\n    - Keep the face exactly the same. Do not change eyes, lips, nose, skin tone, or hair.\n    - Only modify body, pose, and environment.\n    - Apply the requested body/outfit ONLY.\n    - Ensure high photorealism and natural blending.\n    - OUTPUT FORMAT: Full-bleed image. NO Borders, NO Frames, NO Device Mockups.\n    "

/-- Embedding of `generateFromReference`. -/
def generateFromReference (prompt : String) (images : List ImageBlob) (env : Env) :
    Except JsError ImgTextOut × List GwCall :=
  if images.length = 0 then (.error (mkError "No reference images provided."), [])
  else
    let parts := images.map Part.inlineData ++ [Part.text (referencePromptText prompt)]
    let calls := [GwCall.flashImage parts]
    match env.flashImg parts with
    | .ok resp =>
        match firstInlineData resp.parts with
        | some b =>
            (.ok ⟨dataUri b, jsOr resp.text "Here is your generated image with face consistency preserved.", prompt⟩, calls)
        | none =>
            (.ok ⟨"", jsOr resp.text "I was unable to generate the image from the reference.", prompt⟩, calls)
    | .err e =>
        if isQuotaError e then
          (.error (mkError "Usage limit exceeded. Please try again later."), calls)
        else
          (.error (mkError "Failed to generate image from reference."), calls)

/-- Ratio description of the exported `resizeImage` switch. -/
def resizeRatioDescription (aspectRatio : String) : String :=
  match aspectRatio with
  | "1:1" => "SQUARE (1:1)"
  | "9:16" => "TALL PORTRAIT (9:16)"
  | "16:9" => "WIDE LANDSCAPE (16:9)"
  | "3:4" => "PORTRAIT (3:4)"
  | "4:3" => "LANDSCAPE (4:3)"
  | _ => aspectRatio

/-- Size instructions of the exported `resizeImage` switch. -/
def resizeSizeInstructions (aspectRatio : String) : String :=
  match aspectRatio with
  | "1:1" => "1080x1080 pixels"
  | "9:16" => "1080x1920 pixels"
  | "16:9" => "1920x1080 pixels"
  | "3:4" => "1080x1440 pixels"
  | "4:3" => "1440x1080 pixels"
  | _ => "the requested aspect ratio"

/-- Scene description computed by `resizeImage` from the optional original
prompt (computed in the source but not interpolated into its template). -/
def resizeSceneDescription (originalPrompt : Option String) : String :=
  match originalPrompt with
  | some p => "SCENE DESCRIPTION: \"" ++ p ++ "\""
  | none => "SCENE: The provided image."

/-- The outpainting instruction of the exported `resizeImage`. -/
def resizePromptText (aspectRatio : String) : String :=
  "\n    CRITICAL TASK: CREATE A NEW IMAGE based on the attached reference.\n    \n    TARGET ASPECT RATIO: "
    ++ aspectRatio ++ " (" ++ resizeRatioDescription aspectRatio
    ++ ")\n    \n    INSTRUCTIONS:\n    1. IGNORE the aspect ratio of the attached reference image.\n    2. GENERATE a new image canvas with dimensions approx "
    ++ resizeSizeInstructions aspectRatio
    ++ ".\n    3. RECOMPOSE the scene to fit this new shape perfectly.\n       - If "
    ++ aspectRatio
    ++ " is wider than original: OUTPAINT / EXTEND background horizontally.\n       - If "
    ++ aspectRatio
    ++ " is taller than original: EXTEND background vertically.\n    4. CONSISTENCY IS KEY:\n       - Subject (Face, Body, Dress) MUST match the reference EXACTLY.\n       - Environment/Lighting MUST match the reference.\n    \n    OUTPUT:\n    - A single, high-quality image.\n    - FULL BLEED (No borders, no frames, no black bars).\n    - The image MUST fill the "
    ++ aspectRatio
    ++ " frame completely.\n    "

/-- Embedding of the exported `resizeImage` (the original prompt parameter
only feeds the unused scene description, so the request never depends on it;
on a response without an image part the thrown text-derived error is itself
re-classified by the surrounding catch). -/
def resizeImage (image : ImageBlob) (aspectRatio : String)
    (_originalPrompt : Option String) (env : Env) :
    Except JsError ResizeOut × List GwCall :=
  let parts := [Part.inlineData image, Part.text (resizePromptText aspectRatio)]
  let calls := [GwCall.flashImage parts]
  match env.flashImg parts with
  | .ok resp =>
      match firstInlineData resp.parts with
      | some b =>
          (.ok ⟨dataUri b, "Here is your image, resized to " ++ aspectRatio ++ "."⟩, calls)
      | none =>
          let e := mkError (jsOr resp.text "The model failed to resize the image.")
          if isQuotaError e then
            (.error (mkError "Usage limit exceeded. Please try again later."), calls)
          else (.error e, calls)
  | .err e =>
      if isQuotaError e then
        (.error (mkError "Usage limit exceeded. Please try again later."), calls)
      else (.error e, calls)

/-- Embedding of `executeSearch` (any failure is wrapped in a fixed error). -/
def executeSearch (query : String) (env : Env) :
    Except JsError SearchOut × List GwCall :=
  match env.search query with
  | .ok o => (.ok ⟨jsOr o.text "", o.sources⟩, [.webSearch query])
  | .err _ => (.error (mkError "Failed to get information from Google Search."), [.webSearch query])

/-- Embedding of `executeComplexQuery` (any failure is wrapped). -/
def executeComplexQuery (query : String) (env : Env) :
    Except JsError TextOut × List GwCall :=
  match env.complex query with
  | .ok t => (.ok ⟨jsOr t ""⟩, [.complexReason query])
  | .err _ => (.error (mkError "Failed to process the complex query."), [.complexReason query])

/-- The single return contract of every dispatch path of `sendMessage`.
An absent optional boolean is `false`. -/
structure SendResult where
  text : String
  sources : Option (List GroundingSource) := none
  image : Option String := none
  prompt : Option String := none
  needsAspectRatio : Bool := false
  pendingPrompt : Option String := none
  resetMemory : Bool := false
deriving DecidableEq

/-- Map the value of an awaited operation into a dispatch result, letting a
thrown error propagate unchanged (the `return { ... }` after an `await`). -/
def okMap {α : Type} (p : Except JsError α × List GwCall) (f : α → SendResult) :
    Except JsError SendResult × List GwCall :=
  match p with
  | (.ok r, calls) => (.ok (f r), calls)
  | (.error e, calls) => (.error e, calls)

/-- The user-facing text of the `resetFaceMemory` branch. -/
def resetConfirmationText : String :=
  "Face memory has been reset. Please upload new face photos for the next generation."

/-- The failure text of an image-dependent tool that found no image. -/
def noImageText : String :=
  "I\x27m sorry, I couldn\x27t find an image to work with. Please upload one first."

/-- The failure text of `generateFromReference` dispatch without any image. -/
def uploadFaceText : String := "Please upload your face image for consistency."

/-- Routing on the first tool call returned by the tool-selection step: the
body of `sendMessage` after extracting `functionCalls[0]`. -/
def dispatchTool (text : String) (images : List ImageBlob) (history : List Content)
    (env : Env) (tool : ToolCall) : Except JsError SendResult × List GwCall :=
  if tool.name = "resetFaceMemory" then
    (.ok { text := resetConfirmationText, resetMemory := true }, [])
  else if tool.name = "searchTheWeb" then
    let query := if tool.args.query = "" then text else tool.args.query
    okMap (executeSearch query env) fun r => { text := r.text, sources := r.sources }
  else if tool.name = "complexQuery" then
    let query := if tool.args.query = "" then text else tool.args.query
    okMap (executeComplexQuery query env) fun r => { text := r.text }
  else if tool.name = "generateImage" then
    let prompt := tool.args.prompt
    if images.length > 0 then
      okMap (generateFromReference prompt images env) fun r =>
        { text := r.text, image := some r.image, prompt := some r.prompt }
    else
      (.ok { text := "I can generate an image of \"" ++ prompt ++ "\". Please select an aspect ratio.",
             needsAspectRatio := true, pendingPrompt := some prompt }, [])
  else if tool.name = "editImage" || tool.name = "resizeImage"
      || tool.name = "generateFromReference" then
    let lastImage := findLastImage history images
    if tool.name = "editImage" then
      match lastImage with
      | none => (.ok { text := noImageText }, [])
      | some img =>
          okMap (executeEditImage tool.args.prompt img env) fun r =>
            { text := r.text, image := some r.image, prompt := some r.prompt }
    else if tool.name = "resizeImage" then
      match lastImage with
      | none => (.ok { text := noImageText }, [])
      | some img =>
          okMap (resizeImage img tool.args.aspectRatio none env) fun r =>
            { text := r.text, image := some r.image, prompt := some "resized" }
    else
      let allImages :=
        if images.length = 0 then
          match findLastImage history [] with
          | some i => [i]
          | none => []
        else images
      if allImages.length = 0 then (.ok { text := uploadFaceText }, [])
      else
        okMap (generateFromReference tool.args.prompt allImages env) fun r =>
          { text := r.text, image := some r.image, prompt := some r.prompt }
  else
    (.ok { text := "I\x27m not sure how to handle that tool call." }, [])

/-- The user turn appended to history for the tool-selection completion. -/
def userTurn (text : String) (images : List ImageBlob) : Content :=
  ⟨"user", Part.text text :: images.map Part.inlineData⟩

/-- The body of `sendMessage` up to (but not including) its try/catch:
tool selection, then routing on the first tool call. -/
def sendMessageCore (text : String) (images : List ImageBlob) (history : List Content)
    (env : Env) : Except JsError SendResult × List GwCall :=
  let contents := history ++ [userTurn text images]
  match env.toolSelect contents with
  | .err e => (.error e, [.toolSelect contents])
  | .ok sel =>
      match sel.functionCalls with
      | [] => (.ok { text := jsOr sel.text "" }, [.toolSelect contents])
      | tool :: _ =>
          let step := dispatchTool text images history env tool
          (step.1, .toolSelect contents :: step.2)

/-- The high-traffic message of the quota branch of the dispatcher's catch. -/
def quotaTrafficText : String :=
  "I apologize, but I\x27m currently experiencing high traffic (Quota Exceeded). Please try again in a few moments."

/-- Embedding of `sendMessage`: the dispatch body wrapped in the catch that
classifies any thrown error and always returns a well-formed result. -/
def sendMessage (text : String) (images : List ImageBlob) (history : List Content)
    (env : Env) : SendResult × List GwCall :=
  match sendMessageCore text images history env with
  | (.ok r, calls) => (r, calls)
  | (.error e, calls) =>
      if isQuotaError e then ({ text := quotaTrafficText }, calls)
      else ({ text := "An error occurred: " ++ e.message }, calls)

/-- The four per-session reference-image slots of `CompleteConsistencyAI`
(raw base64 bytes, `null` when empty). -/
structure ConsistencyMemory where
  faceMemory : Option String
  dressMemory : Option String
  backgroundMemory : Option String
  environmentMemory : Option String
deriving DecidableEq

/-- The read-only snapshot returned by `getMemories`. -/
structure MemorySnapshot where
  face : Option String
  dress : Option String
  background : Option String
  environment : Option String
deriving DecidableEq

/-- The four consistency attributes. -/
inductive MemElement where
  | face
  | dress
  | background
  | environment
deriving DecidableEq

/-- Embedding of `setFaceReference`. -/
def setFaceReference (m : ConsistencyMemory) (base64 : String) : ConsistencyMemory :=
  { m with faceMemory := some base64 }

/-- Embedding of `setDressReference`. -/
def setDressReference (m : ConsistencyMemory) (base64 : String) : ConsistencyMemory :=
  { m with dressMemory := some base64 }

/-- Embedding of `setBackgroundReference`. -/
def setBackgroundReference (m : ConsistencyMemory) (base64 : String) : ConsistencyMemory :=
  { m with backgroundMemory := some base64 }

/-- Embedding of `setEnvironmentReference`. -/
def setEnvironmentReference (m : ConsistencyMemory) (base64 : String) : ConsistencyMemory :=
  { m with environmentMemory := some base64 }

/-- The attribute-indexed setter (dispatching to the four named setters). -/
def setMem (m : ConsistencyMemory) : MemElement → String → ConsistencyMemory
  | .face, b => setFaceReference m b
  | .dress, b => setDressReference m b
  | .background, b => setBackgroundReference m b
  | .environment, b => setEnvironmentReference m b

/-- Embedding of `getMemories`. -/
def getMemories (m : ConsistencyMemory) : MemorySnapshot :=
  ⟨m.faceMemory, m.dressMemory, m.backgroundMemory, m.environmentMemory⟩

/-- Read one attribute of the `getMemories` snapshot. -/
def memGet (m : ConsistencyMemory) : MemElement → Option String
  | .face => (getMemories m).face
  | .dress => (getMemories m).dress
  | .background => (getMemories m).background
  | .environment => (getMemories m).environment

/-- Embedding of `clearMemory`. -/
def clearMemory (m : ConsistencyMemory) : MemElement → ConsistencyMemory
  | .face => { m with faceMemory := none }
  | .dress => { m with dressMemory := none }
  | .background => { m with backgroundMemory := none }
  | .environment => { m with environmentMemory := none }

/-- Embedding of `clearAllMemories`. -/
def clearAllMemories (_m : ConsistencyMemory) : ConsistencyMemory :=
  ⟨none, none, none, none⟩

/-- The mutable session state of the App relevant to dispatch results: the
turn-level face-reference list and the Consistency Studio memory object. -/
structure AppState where
  faceReferences : List ImageBlob
  consistencyAI : ConsistencyMemory
deriving DecidableEq

/-- Embedding of the `handleSendMessage` response handling in `App.tsx`:
when the dispatch result carries `resetMemory`, the face-reference list is
cleared; nothing else of the session state is touched. -/
def applyBotResponse (st : AppState) (r : SendResult) : AppState :=
  if r.resetMemory then { st with faceReferences := [] } else st

/-! Concrete oracle environments used by witnesses and counterexamples. -/

/-- An environment where every gateway call fails with a non-quota error. -/
def envAllErr : Env :=
  { toolSelect := fun _ => .err (mkError "boom")
    imagen := fun _ _ => .err (mkError "boom")
    flashImg := fun _ => .err (mkError "boom")
    search := fun _ => .err (mkError "boom")
    complex := fun _ => .err (mkError "boom") }

/-- Tool selection itself fails with a quota-flavoured error. -/
def envQuotaSelect : Env :=
  { envAllErr with toolSelect := fun _ => .err (mkError "429 quota hit") }

/-- Primary image backend fails with a quota error, the fallback with a
plain network error. -/
def envC3 : Env :=
  { envAllErr with
    imagen := fun _ _ => .err ⟨"Error 429: RESOURCE_EXHAUSTED", "\x7b\x7d"⟩
    flashImg := fun _ => .err ⟨"network unreachable", "\x7b\x7d"⟩ }

/-- Primary image backend succeeds directly. -/
def envC4 : Env :=
  { envAllErr with imagen := fun _ _ => .ok (some "XYZ") }

/-- Flash-image backend answers with text but no image part. -/
def envNoImg : Env :=
  { envAllErr with flashImg := fun _ => .ok ⟨some "nope", []⟩ }

/-- Tool selection picks `resetFaceMemory`. -/
def envReset : Env :=
  { envAllErr with toolSelect := fun _ => .ok ⟨none, [⟨"resetFaceMemory", ⟨"", "", ""⟩⟩]⟩ }

/-- Tool selection picks `generateImage` with prompt "a cat". -/
def envGenPending : Env :=
  { envAllErr with toolSelect := fun _ => .ok ⟨none, [⟨"generateImage", ⟨"a cat", "", ""⟩⟩]⟩ }

/-- Tool selection picks `resizeImage` with ratio 16:9. -/
def envResizeTool : Env :=
  { envAllErr with toolSelect := fun _ => .ok ⟨none, [⟨"resizeImage", ⟨"", "", "16:9"⟩⟩]⟩ }

/-- An App session whose Consistency Studio holds face and dress references. -/
def studioState : AppState :=
  ⟨[⟨"turnFace", "image/png"⟩], ⟨some "faceRef", some "dressRef", none, none⟩⟩

/-! Helper lemmas. -/

lemma okMap_ok {α : Type} (p : Except JsError α × List GwCall) (f : α → SendResult)
    (r : SendResult) (calls : List GwCall) (h : okMap p f = (.ok r, calls)) :
    ∃ a, r = f a := by
  rcases p with ⟨pe, pc⟩
  cases pe with
  | ok a =>
      refine ⟨a, ?_⟩
      simp only [okMap, Prod.mk.injEq, Except.ok.injEq] at h
      exact h.1.symm
  | error e => simp [okMap] at h

lemma okMap_snd {α : Type} (p : Except JsError α × List GwCall) (f : α → SendResult) :
    (okMap p f).2 = p.2 := by
  rcases p with ⟨pe, pc⟩
  cases pe <;> rfl

lemma findSome?_append {α β : Type} (l1 l2 : List α) (f : α → Option β) :
    (l1 ++ l2).findSome? f =
      match l1.findSome? f with
      | some b => some b
      | none => l2.findSome? f := by
  induction l1 with
  | nil => simp [List.findSome?]
  | cons a l ih =>
      simp only [List.cons_append, List.findSome?]
      cases f a <;> simp [ih]

lemma findSome?_singleton {α β : Type} (a : α) (f : α → Option β) :
    [a].findSome? f = f a := by
  simp only [List.findSome?]
  cases f a <;> rfl

lemma scanBack_eq_mostRecent (h : List Content) :
    (h.reverse.findSome? fun content => content.parts.reverse.findSome? partImage)
      = mostRecentImagePart h := by
  induction h with
  | nil => rfl
  | cons c t ih =>
      unfold mostRecentImagePart at ih ⊢
      rw [List.reverse_cons, findSome?_append, findSome?_singleton]
      rw [List.map_cons, List.flatten_cons, List.reverse_append, findSome?_append]
      rw [ih]

lemma executeEditImage_snd (p : String) (img : ImageBlob) (env : Env) :
    (executeEditImage p img env).2
      = [GwCall.flashImage [Part.inlineData img, Part.text (editPromptText p)]] := by
  cases hf : env.flashImg [Part.inlineData img, Part.text (editPromptText p)] with
  | ok resp => cases hfi : firstInlineData resp.parts <;> simp [executeEditImage, hf, hfi]
  | err e => by_cases hq : isQuotaError e <;> simp [executeEditImage, hf, hq]

lemma resizeImage_snd (img : ImageBlob) (ar : String) (op : Option String) (env : Env) :
    (resizeImage img ar op env).2
      = [GwCall.flashImage [Part.inlineData img, Part.text (resizePromptText ar)]] := by
  cases hf : env.flashImg [Part.inlineData img, Part.text (resizePromptText ar)] with
  | ok resp =>
      cases hfi : firstInlineData resp.parts
      · by_cases hq : isQuotaError (mkError (jsOr resp.text "The model failed to resize the image."))
          <;> simp [resizeImage, hf, hfi, hq]
      · simp [resizeImage, hf, hfi]
  | err e => by_cases hq : isQuotaError e <;> simp [resizeImage, hf, hq]

lemma generateFromReference_snd (p : String) (imgs : List ImageBlob) (env : Env)
    (h : imgs.length ≠ 0) :
    (generateFromReference p imgs env).2
      = [GwCall.flashImage (imgs.map Part.inlineData ++ [Part.text (referencePromptText p)])] := by
  cases hf : env.flashImg (imgs.map Part.inlineData ++ [Part.text (referencePromptText p)]) with
  | ok resp => cases hfi : firstInlineData resp.parts <;> simp [generateFromReference, h, hf, hfi]
  | err e => by_cases hq : isQuotaError e <;> simp [generateFromReference, h, hf, hq]

lemma sendMessage_snd (t : String) (imgs : List ImageBlob) (h : List Content) (env : Env) :
    (sendMessage t imgs h env).2 = (sendMessageCore t imgs h env).2 := by
  unfold sendMessage
  rcases hc : sendMessageCore t imgs h env with ⟨res, calls⟩
  cases res with
  | ok r => rfl
  | error e => by_cases hq : isQuotaError e <;> simp [hq]

lemma sendMessageCore_dispatch (t : String) (imgs : List ImageBlob) (h : List Content)
    (env : Env) (sel : SelectOut) (tc : ToolCall) (rest : List ToolCall)
    (hsel : env.toolSelect (h ++ [userTurn t imgs]) = .ok sel)
    (hfc : sel.functionCalls = tc :: rest) :
    sendMessageCore t imgs h env =
      ((dispatchTool t imgs h env tc).1,
       .toolSelect (h ++ [userTurn t imgs]) :: (dispatchTool t imgs h env tc).2) := by
  simp [sendMessageCore, hsel, hfc]

/-! Claim theorems. -/

/-- C1: the dispatcher is error-opaque: whenever the dispatch body raises,
`sendMessage` catches the error and returns a plain text result, the
high-traffic message when the error classifies as quota-related and a
generic error message otherwise; when the body returns normally, its
well-formed result is passed through unchanged. -/
theorem sendMessage_catches_all_errors (t : String) (imgs : List ImageBlob) (h : List Content)
    (env : Env) (e : JsError) (r : SendResult) (calls : List GwCall) :
    (sendMessageCore t imgs h env = (.error e, calls) →
      sendMessage t imgs h env =
        (if isQuotaError e then { text := quotaTrafficText }
         else { text := "An error occurred: " ++ e.message }, calls))
    ∧ (sendMessageCore t imgs h env = (.ok r, calls) →
        sendMessage t imgs h env = (r, calls)) := by
  constructor <;> intro hc
  · simp only [sendMessage, hc]
    split <;> rfl
  · simp [sendMessage, hc]

/-- Witness for C1: a concrete quota-flavoured tool-selection failure is
converted into the high-traffic text result. -/
theorem sendMessage_catches_all_errors_witness :
    sendMessage "hi" [] [] envQuotaSelect
      = ({ text := quotaTrafficText }, [GwCall.toolSelect [userTurn "hi" []]]) := by
  have h := (sendMessage_catches_all_errors "hi" [] [] envQuotaSelect (mkError "429 quota hit")
    { text := "" } [GwCall.toolSelect [userTurn "hi" []]]).1 rfl
  exact h.trans (by rfl)

/-- C3 counterexample: on the input prompt "a cat" with ratio 1:1 in an
environment where the primary backend fails with a quota error and the
secondary with a plain network error, both attempts fail and the primary
failure is quota-related, yet the surfaced error is the generic generation
failure, not a quota error. -/
theorem generateImage_primary_quota_ignored :
    envC3.imagen (genFullPrompt "a cat" "1:1") "1:1"
        = .err ⟨"Error 429: RESOURCE_EXHAUSTED", "\x7b\x7d"⟩
    ∧ isQuotaError ⟨"Error 429: RESOURCE_EXHAUSTED", "\x7b\x7d"⟩ = true
    ∧ envC3.flashImg [Part.text (genFullPrompt "a cat" "1:1")]
        = .err ⟨"network unreachable", "\x7b\x7d"⟩
    ∧ (executeGenerateImage "a cat" "1:1" envC3).1
        = .error (mkError "Failed to generate image. Please try again.")
    ∧ isQuotaError (mkError "Failed to generate image. Please try again.") = false :=
  ⟨rfl, rfl, rfl, rfl, rfl⟩

/-- C3 (amended): when both attempts fail, the surfaced error is a quota
error exactly when the secondary (fallback) failure was a quota-related
exception, and a generic generation failure otherwise; the primary
failure's classification is ignored.  Both secondary failure modes are
covered: a raising fallback surfaces the quota message or the generic
failure according to its own classification, and a fallback that returns
without an image part surfaces the no-image error; the quota message
classifies as a quota error while both generic messages do not. -/
theorem generateImage_both_fail_classification (p ar : String) (env : Env) (e : JsError)
    (resp : FlashResp)
    (h1 : gwNoImage (env.imagen (genFullPrompt p ar) ar) = true) :
    (env.flashImg [Part.text (genFullPrompt p ar)] = .err e →
      (executeGenerateImage p ar env).1 =
        .error (mkError (if isQuotaError e then
            "Image generation quota exceeded. Please try again later."
          else "Failed to generate image. Please try again.")))
    ∧ (env.flashImg [Part.text (genFullPrompt p ar)] = .ok resp →
        firstInlineData resp.parts = none →
        (executeGenerateImage p ar env).1 = .error (mkError "No image was generated."))
    ∧ isQuotaError (mkError "Image generation quota exceeded. Please try again later.") = true
    ∧ isQuotaError (mkError "Failed to generate image. Please try again.") = false
    ∧ isQuotaError (mkError "No image was generated.") = false := by
  refine ⟨?_, ?_, rfl, rfl, rfl⟩
  · intro h2
    cases him : env.imagen (genFullPrompt p ar) ar with
    | ok o =>
        cases o with
        | some b => rw [him] at h1; simp [gwNoImage] at h1
        | none => by_cases hq : isQuotaError e <;> simp [executeGenerateImage, him, h2, hq]
    | err e0 => by_cases hq : isQuotaError e <;> simp [executeGenerateImage, him, h2, hq]
  · intro h2 h3
    cases him : env.imagen (genFullPrompt p ar) ar with
    | ok o =>
        cases o with
        | some b => rw [him] at h1; simp [gwNoImage] at h1
        | none => simp [executeGenerateImage, him, h2, h3]
    | err e0 => simp [executeGenerateImage, him, h2, h3]

/-- Witness for C3 (amended): with a non-quota secondary failure the
surfaced error is the generic generation failure. -/
theorem generateImage_both_fail_classification_witness :
    (executeGenerateImage "a cat" "1:1" envC3).1 =
      .error (mkError (if isQuotaError ⟨"network unreachable", "\x7b\x7d"⟩ then
          "Image generation quota exceeded. Please try again later."
        else "Failed to generate image. Please try again.")) :=
  (generateImage_both_fail_classification "a cat" "1:1" envC3
    ⟨"network unreachable", "\x7b\x7d"⟩ ⟨none, []⟩ rfl).1 rfl

/-- C4: the two-stage pipeline builds the synthesized prompt once: every
gateway call it performs carries that one prompt, and the trace is either
the primary call alone or primary followed by secondary; when the primary
yields image bytes the pipeline returns them at once and the secondary is
never invoked; when the primary yields no bytes but the secondary responds
with an image part, the pipeline returns the secondary's image as a success
with no error. -/
theorem generateImage_pipeline_single_prompt (p ar : String) (env : Env) :
    ((executeGenerateImage p ar env).2 = [GwCall.imagenGen (genFullPrompt p ar) ar]
      ∨ (executeGenerateImage p ar env).2 =
          [GwCall.imagenGen (genFullPrompt p ar) ar,
           GwCall.flashImage [Part.text (genFullPrompt p ar)]])
    ∧ (∀ bytes, env.imagen (genFullPrompt p ar) ar = .ok (some bytes) →
        executeGenerateImage p ar env =
          (.ok ⟨"data:image/png;base64," ++ bytes⟩,
           [GwCall.imagenGen (genFullPrompt p ar) ar]))
    ∧ (∀ resp b, gwNoImage (env.imagen (genFullPrompt p ar) ar) = true →
        env.flashImg [Part.text (genFullPrompt p ar)] = .ok resp →
        firstInlineData resp.parts = some b →
        executeGenerateImage p ar env =
          (.ok ⟨dataUri b⟩,
           [GwCall.imagenGen (genFullPrompt p ar) ar,
            GwCall.flashImage [Part.text (genFullPrompt p ar)]])) := by
  refine ⟨?_, ?_, ?_⟩
  · cases him : env.imagen (genFullPrompt p ar) ar with
    | ok o =>
        cases o with
        | some b => left; simp [executeGenerateImage, him]
        | none =>
            right
            cases hf : env.flashImg [Part.text (genFullPrompt p ar)] with
            | ok resp =>
                cases hfi : firstInlineData resp.parts
                  <;> simp [executeGenerateImage, him, hf, hfi]
            | err e =>
                by_cases hq : isQuotaError e <;> simp [executeGenerateImage, him, hf, hq]
    | err e0 =>
        right
        cases hf : env.flashImg [Part.text (genFullPrompt p ar)] with
        | ok resp =>
            cases hfi : firstInlineData resp.parts
              <;> simp [executeGenerateImage, him, hf, hfi]
        | err e =>
            by_cases hq : isQuotaError e <;> simp [executeGenerateImage, him, hf, hq]
  · intro bytes him
    simp [executeGenerateImage, him]
  · intro resp b h1 hf hfi
    cases him : env.imagen (genFullPrompt p ar) ar with
    | ok o =>
        cases o with
        | some bs => rw [him] at h1; simp [gwNoImage] at h1
        | none => simp [executeGenerateImage, him, hf, hfi]
    | err e0 => simp [executeGenerateImage, him, hf, hfi]

/-- Witness for C4: a concrete primary success returns at once with the
primary call as the only gateway call. -/
theorem generateImage_pipeline_single_prompt_witness :
    executeGenerateImage "a dog" "1:1" envC4 =
      (.ok ⟨"data:image/png;base64," ++ "XYZ"⟩,
       [GwCall.imagenGen (genFullPrompt "a dog" "1:1") "1:1"]) :=
  (generateImage_pipeline_single_prompt "a dog" "1:1" envC4).2.1 "XYZ" rfl

/-- C5: for each of the four consistency attributes, set-then-get returns
exactly the bytes set, clear-then-get returns empty, and after clearAll
every one of the four attributes reads empty regardless of prior state. -/
theorem consistency_memory_set_get_clear (m : ConsistencyMemory) (e : MemElement)
    (b : String) :
    memGet (setMem m e b) e = some b
    ∧ memGet (clearMemory m e) e = none
    ∧ ∀ e2 : MemElement, memGet (clearAllMemories m) e2 = none := by
  refine ⟨?_, ?_, ?_⟩
  · cases e <;> rfl
  · cases e <;> rfl
  · intro e2; cases e2 <;> rfl

/-- C7 counterexample: dispatching `resetFaceMemory` returns
`resetMemory = true`, but after the App handler runs, a Consistency Studio
slot (dress) still holds its prior bytes, so not all four consistency
memory slots are empty after the dispatch. -/
theorem resetFaceMemory_keeps_studio_slots :
    ((sendMessage "reset face" [] [] envReset).1).resetMemory = true
    ∧ memGet (applyBotResponse studioState
        (sendMessage "reset face" [] [] envReset).1).consistencyAI MemElement.dress
        = some "dressRef" :=
  ⟨rfl, rfl⟩

/-- C7 (amended): dispatching `resetFaceMemory` always returns
`resetMemory = true` with the confirmation text, and the App handler then
clears the turn-level face-reference list while leaving the four-slot
Consistency Studio memory unchanged. -/
theorem resetFaceMemory_dispatch_behavior (t : String) (imgs : List ImageBlob)
    (h : List Content) (env : Env) (sel : SelectOut) (tc : ToolCall)
    (rest : List ToolCall) (st : AppState)
    (hsel : env.toolSelect (h ++ [userTurn t imgs]) = .ok sel)
    (hfc : sel.functionCalls = tc :: rest)
    (hname : tc.name = "resetFaceMemory") :
    (sendMessage t imgs h env).1 = { text := resetConfirmationText, resetMemory := true }
    ∧ (applyBotResponse st (sendMessage t imgs h env).1).faceReferences = []
    ∧ (applyBotResponse st (sendMessage t imgs h env).1).consistencyAI = st.consistencyAI := by
  have hmain : sendMessage t imgs h env =
      ({ text := resetConfirmationText, resetMemory := true },
       [GwCall.toolSelect (h ++ [userTurn t imgs])]) := by
    simp [sendMessage, sendMessageCore, hsel, hfc, dispatchTool, hname]
  refine ⟨by rw [hmain], by rw [hmain]; rfl, by rw [hmain]; rfl⟩

/-- Witness for C7 (amended): concrete reset dispatch with a populated
studio memory. -/
theorem resetFaceMemory_dispatch_behavior_witness :
    (sendMessage "reset face" [] [] envReset).1
        = { text := resetConfirmationText, resetMemory := true }
    ∧ (applyBotResponse studioState (sendMessage "reset face" [] [] envReset).1).faceReferences
        = []
    ∧ (applyBotResponse studioState (sendMessage "reset face" [] [] envReset).1).consistencyAI
        = studioState.consistencyAI :=
  resetFaceMemory_dispatch_behavior "reset face" [] [] envReset
    ⟨none, [⟨"resetFaceMemory", ⟨"", "", ""⟩⟩]⟩ ⟨"resetFaceMemory", ⟨"", "", ""⟩⟩ []
    studioState rfl rfl rfl

/-- C9: on the concrete raw prompt "a lion in the desert, landscape" with
ratio 9:16, the generation-prompt builder strips the word landscape,
detects subject lion and environment desert, and its output contains 9:16
and the vertical-composition guidance block but not the word landscape. -/
theorem buildGenerationPrompt_lion_desert_916 :
    cleanPromptForResize "a lion in the desert, landscape" = "a lion in the desert,"
    ∧ strContains (cleanPromptForResize "a lion in the desert, landscape") "landscape" = false
    ∧ detectMainSubject (lowerStr (cleanPromptForResize "a lion in the desert, landscape"))
        = "lion"
    ∧ detectEnvironment (lowerStr (cleanPromptForResize "a lion in the desert, landscape"))
        = "desert"
    ∧ strContains (genFullPrompt "a lion in the desert, landscape" "9:16") "9:16" = true
    ∧ strContains (genFullPrompt "a lion in the desert, landscape" "9:16")
        (ratioGuidance "9:16" "lion" "desert") = true
    ∧ strContains (genFullPrompt "a lion in the desert, landscape" "9:16") "landscape"
        = false := by
  decide

/-- C10: when the flash-image backend call of an edit or a reference-based
generation completes without raising but yields no image part, the
operation still succeeds: the result's image is the empty string and its
text is the backend's text response or the fixed fallback message. -/
theorem flash_no_image_yields_empty_success (p : String) (img : ImageBlob)
    (imgs : List ImageBlob) (env : Env) (resp resp2 : FlashResp)
    (h1 : env.flashImg [Part.inlineData img, Part.text (editPromptText p)] = .ok resp)
    (h2 : firstInlineData resp.parts = none)
    (h3 : imgs.length ≠ 0)
    (h4 : env.flashImg (imgs.map Part.inlineData ++ [Part.text (referencePromptText p)])
            = .ok resp2)
    (h5 : firstInlineData resp2.parts = none) :
    (executeEditImage p img env).1 =
      .ok ⟨"", jsOr resp.text
        "I was unable to edit the image as requested. Please try a different prompt.", p⟩
    ∧ (generateFromReference p imgs env).1 =
      .ok ⟨"", jsOr resp2.text "I was unable to generate the image from the reference.", p⟩ := by
  constructor
  · simp [executeEditImage, h1, h2]
  · simp [generateFromReference, h3, h4, h5]

lemma dispatchTool_ok_no_pending_image (t : String) (imgs : List ImageBlob)
    (h : List Content) (env : Env) (tool : ToolCall) (r : SendResult) (calls : List GwCall)
    (heq : dispatchTool t imgs h env tool = (.ok r, calls)) :
    (r.needsAspectRatio && r.image.isSome) = false := by
  simp only [dispatchTool] at heq
  repeat' split at heq
  all_goals first
    | (obtain ⟨a, ha⟩ := okMap_ok _ _ _ _ heq; subst ha; rfl)
    | (simp only [Prod.mk.injEq, Except.ok.injEq] at heq
       obtain ⟨h1, -⟩ := heq
       subst h1
       rfl)

lemma sendMessageCore_ok_no_pending_image (t : String) (imgs : List ImageBlob)
    (h : List Content) (env : Env) (r : SendResult) (calls : List GwCall)
    (heq : sendMessageCore t imgs h env = (.ok r, calls)) :
    (r.needsAspectRatio && r.image.isSome) = false := by
  simp only [sendMessageCore] at heq
  split at heq
  · exact absurd heq (by simp)
  · split at heq
    · simp only [Prod.mk.injEq, Except.ok.injEq] at heq
      obtain ⟨h1, -⟩ := heq
      subst h1
      rfl
    · rcases hdt : dispatchTool t imgs h env _ with ⟨res, cs⟩
      rw [hdt] at heq
      simp only [Prod.mk.injEq] at heq
      obtain ⟨h1, -⟩ := heq
      exact dispatchTool_ok_no_pending_image t imgs h env _ r cs (by rw [hdt, h1])

lemma sendMessage_error_fields (t : String) (imgs : List ImageBlob) (h : List Content)
    (env : Env) (e : JsError) (calls : List GwCall)
    (hc : sendMessageCore t imgs h env = (.error e, calls)) :
    (sendMessage t imgs h env).1.needsAspectRatio = false
    ∧ (sendMessage t imgs h env).1.pendingPrompt = none
    ∧ (sendMessage t imgs h env).1.image = none := by
  by_cases hq : isQuotaError e <;> simp [sendMessage, hc, hq]

/-- C8: no single dispatch result both requests a deferred generation and
carries a generated image: a result with `needsAspectRatio` set never has
an image field, whatever the input and the gateway outcomes. -/
theorem pending_and_image_mutually_exclusive (t : String) (imgs : List ImageBlob)
    (h : List Content) (env : Env) :
    ((sendMessage t imgs h env).1.needsAspectRatio
      && ((sendMessage t imgs h env).1.image).isSome) = false := by
  rcases hc : sendMessageCore t imgs h env with ⟨res, calls⟩
  cases res with
  | ok r =>
      have hinv := sendMessageCore_ok_no_pending_image t imgs h env r calls hc
      have hs : sendMessage t imgs h env = (r, calls) := by simp [sendMessage, hc]
      rw [hs]
      exact hinv
  | error e =>
      by_cases hq : isQuotaError e
      · have hs : sendMessage t imgs h env = ({ text := quotaTrafficText }, calls) := by
          simp [sendMessage, hc, hq]
        rw [hs]
        rfl
      · have hs : sendMessage t imgs h env
            = ({ text := "An error occurred: " ++ e.message }, calls) := by
          simp [sendMessage, hc, hq]
        rw [hs]
        rfl

/-- C2: dispatching `generateImage` with zero attached images returns the
deferred-generation result: `needsAspectRatio` set, `pendingPrompt` equal
to the tool call's prompt argument, and no image; with one or more attached
images it instead routes to reference-based generation: `needsAspectRatio`
is never set, no pending prompt is produced, and a successful backend
response with an image part yields a direct image result. -/
theorem generateImage_dispatch_routing (t : String) (imgs : List ImageBlob)
    (h : List Content) (env : Env) (sel : SelectOut) (tc : ToolCall) (rest : List ToolCall)
    (hsel : env.toolSelect (h ++ [userTurn t imgs]) = .ok sel)
    (hfc : sel.functionCalls = tc :: rest)
    (hname : tc.name = "generateImage") :
    (imgs = [] →
      sendMessage t imgs h env =
        ({ text := "I can generate an image of \"" ++ tc.args.prompt
              ++ "\". Please select an aspect ratio.",
           needsAspectRatio := true, pendingPrompt := some tc.args.prompt },
         [GwCall.toolSelect (h ++ [userTurn t imgs])]))
    ∧ (imgs ≠ [] →
        (sendMessage t imgs h env).1.needsAspectRatio = false
        ∧ (sendMessage t imgs h env).1.pendingPrompt = none
        ∧ ∀ resp b,
            env.flashImg (imgs.map Part.inlineData
                ++ [Part.text (referencePromptText tc.args.prompt)]) = .ok resp →
            firstInlineData resp.parts = some b →
            (sendMessage t imgs h env).1.image = some (dataUri b)) := by
  have hd := sendMessageCore_dispatch t imgs h env sel tc rest hsel hfc
  constructor
  · intro himgs
    subst himgs
    have hdt : dispatchTool t [] h env tc =
        (.ok { text := "I can generate an image of \"" ++ tc.args.prompt
                  ++ "\". Please select an aspect ratio.",
               needsAspectRatio := true, pendingPrompt := some tc.args.prompt }, []) := by
      simp [dispatchTool, hname]
    simp [sendMessage, hd, hdt]
  · intro himgs
    have hlen : imgs.length > 0 := List.length_pos.2 himgs
    have hlen0 : imgs.length ≠ 0 := by simpa [List.length_eq_zero] using himgs
    cases hf : env.flashImg (imgs.map Part.inlineData
        ++ [Part.text (referencePromptText tc.args.prompt)]) with
    | ok resp2 =>
        cases hfi : firstInlineData resp2.parts with
        | some b2 =>
            have hgen : generateFromReference tc.args.prompt imgs env =
                (.ok ⟨dataUri b2,
                      jsOr resp2.text "Here is your generated image with face consistency preserved.",
                      tc.args.prompt⟩,
                 [GwCall.flashImage (imgs.map Part.inlineData
                    ++ [Part.text (referencePromptText tc.args.prompt)])]) := by
              simp [generateFromReference, hlen0, hf, hfi]
            have hdt : dispatchTool t imgs h env tc =
                (.ok { text := jsOr resp2.text
                          "Here is your generated image with face consistency preserved.",
                       image := some (dataUri b2), prompt := some tc.args.prompt },
                 [GwCall.flashImage (imgs.map Part.inlineData
                    ++ [Part.text (referencePromptText tc.args.prompt)])]) := by
              simp [dispatchTool, hname, hlen, hgen, okMap]
            have hsend : sendMessage t imgs h env =
                ({ text := jsOr resp2.text
                      "Here is your generated image with face consistency preserved.",
                   image := some (dataUri b2), prompt := some tc.args.prompt },
                 GwCall.toolSelect (h ++ [userTurn t imgs])
                   :: [GwCall.flashImage (imgs.map Part.inlineData
                        ++ [Part.text (referencePromptText tc.args.prompt)])]) := by
              simp [sendMessage, hd, hdt]
            refine ⟨by rw [hsend], by rw [hsend], ?_⟩
            intro resp b hfe hfib
            injection hfe with hresp
            subst hresp
            have hb := hfi.symm.trans hfib
            injection hb with hb
            subst hb
            rw [hsend]
        | none =>
            have hgen : generateFromReference tc.args.prompt imgs env =
                (.ok ⟨"", jsOr resp2.text "I was unable to generate the image from the reference.",
                      tc.args.prompt⟩,
                 [GwCall.flashImage (imgs.map Part.inlineData
                    ++ [Part.text (referencePromptText tc.args.prompt)])]) := by
              simp [generateFromReference, hlen0, hf, hfi]
            have hdt : dispatchTool t imgs h env tc =
                (.ok { text := jsOr resp2.text
                          "I was unable to generate the image from the reference.",
                       image := some "", prompt := some tc.args.prompt },
                 [GwCall.flashImage (imgs.map Part.inlineData
                    ++ [Part.text (referencePromptText tc.args.prompt)])]) := by
              simp [dispatchTool, hname, hlen, hgen, okMap]
            have hsend : sendMessage t imgs h env =
                ({ text := jsOr resp2.text
                      "I was unable to generate the image from the reference.",
                   image := some "", prompt := some tc.args.prompt },
                 GwCall.toolSelect (h ++ [userTurn t imgs])
                   :: [GwCall.flashImage (imgs.map Part.inlineData
                        ++ [Part.text (referencePromptText tc.args.prompt)])]) := by
              simp [sendMessage, hd, hdt]
            refine ⟨by rw [hsend], by rw [hsend], ?_⟩
            intro resp b hfe hfib
            injection hfe with hresp
            subst hresp
            rw [hfi] at hfib
            exact absurd hfib (by simp)
    | err e =>
        rcases hgenp : generateFromReference tc.args.prompt imgs env with ⟨gres, gcalls⟩
        cases gres with
        | ok gr =>
            by_cases hq : isQuotaError e
              <;> simp [generateFromReference, hlen0, hf, hq] at hgenp
        | error ge =>
            have hdt : dispatchTool t imgs h env tc = (.error ge, gcalls) := by
              simp [dispatchTool, hname, hlen, hgenp, okMap]
            have hcore : sendMessageCore t imgs h env =
                (.error ge, GwCall.toolSelect (h ++ [userTurn t imgs]) :: gcalls) := by
              rw [hd, hdt]
            obtain ⟨hna, hpp, him⟩ := sendMessage_error_fields t imgs h env ge _ hcore
            refine ⟨hna, hpp, ?_⟩
            intro resp b hfe hfib
            exact absurd hfe (by simp)

/-- Witness for C2: a concrete `generateImage` dispatch with no attached
images yields the deferred-generation result with the tool's prompt. -/
theorem generateImage_dispatch_routing_witness :
    sendMessage "draw" [] [] envGenPending =
      ({ text := "I can generate an image of \"" ++ "a cat"
            ++ "\". Please select an aspect ratio.",
         needsAspectRatio := true, pendingPrompt := some "a cat" },
       [GwCall.toolSelect [userTurn "draw" []]]) :=
  (generateImage_dispatch_routing "draw" [] [] envGenPending
    ⟨none, [⟨"generateImage", ⟨"a cat", "", ""⟩⟩]⟩
    ⟨"generateImage", ⟨"a cat", "", ""⟩⟩ [] rfl rfl rfl).1 rfl

/-- C6: the target image of the image-dependent tools is the last image
attached to the current turn when any is attached, else the most recent
image part found scanning history backward; when none exists, `editImage`
and `resizeImage` fail with the upload-request message without any gateway
call beyond tool selection, and when one is resolved the flash-image call
operates on exactly the resolved image; `generateFromReference` uses all
attached images, falls back to the most recent history image, and asks for
a face image when none exists. -/
theorem image_dependent_target_resolution (t : String) (imgs : List ImageBlob)
    (h : List Content) (env : Env) (sel : SelectOut) (tc : ToolCall) (rest : List ToolCall)
    (hsel : env.toolSelect (h ++ [userTurn t imgs]) = .ok sel)
    (hfc : sel.functionCalls = tc :: rest) :
    (imgs ≠ [] → findLastImage h imgs = imgs.getLast?)
    ∧ (findLastImage h [] = mostRecentImagePart h)
    ∧ (tc.name = "editImage" → findLastImage h imgs = none →
        sendMessage t imgs h env
          = ({ text := noImageText }, [GwCall.toolSelect (h ++ [userTurn t imgs])]))
    ∧ (tc.name = "resizeImage" → findLastImage h imgs = none →
        sendMessage t imgs h env
          = ({ text := noImageText }, [GwCall.toolSelect (h ++ [userTurn t imgs])]))
    ∧ (∀ img, tc.name = "editImage" → findLastImage h imgs = some img →
        (sendMessage t imgs h env).2 =
          [GwCall.toolSelect (h ++ [userTurn t imgs]),
           GwCall.flashImage [Part.inlineData img, Part.text (editPromptText tc.args.prompt)]])
    ∧ (∀ img, tc.name = "resizeImage" → findLastImage h imgs = some img →
        (sendMessage t imgs h env).2 =
          [GwCall.toolSelect (h ++ [userTurn t imgs]),
           GwCall.flashImage [Part.inlineData img,
             Part.text (resizePromptText tc.args.aspectRatio)]])
    ∧ (tc.name = "generateFromReference" → imgs ≠ [] →
        (sendMessage t imgs h env).2 =
          [GwCall.toolSelect (h ++ [userTurn t imgs]),
           GwCall.flashImage (imgs.map Part.inlineData
             ++ [Part.text (referencePromptText tc.args.prompt)])])
    ∧ (∀ img, tc.name = "generateFromReference" → imgs = [] →
        findLastImage h [] = some img →
        (sendMessage t imgs h env).2 =
          [GwCall.toolSelect (h ++ [userTurn t imgs]),
           GwCall.flashImage [Part.inlineData img,
             Part.text (referencePromptText tc.args.prompt)]])
    ∧ (tc.name = "generateFromReference" → imgs = [] → findLastImage h [] = none →
        sendMessage t imgs h env
          = ({ text := uploadFaceText }, [GwCall.toolSelect (h ++ [userTurn t imgs])])) := by
  have hd := sendMessageCore_dispatch t imgs h env sel tc rest hsel hfc
  have hsnd : (sendMessage t imgs h env).2
      = GwCall.toolSelect (h ++ [userTurn t imgs]) :: (dispatchTool t imgs h env tc).2 := by
    rw [sendMessage_snd, hd]
  refine ⟨?_, ?_, ?_, ?_, ?_, ?_, ?_, ?_, ?_⟩
  · intro himgs
    have hlen : imgs.length > 0 := List.length_pos.2 himgs
    simp [findLastImage, hlen]
  · simp only [findLastImage, List.length_nil, gt_iff_lt, lt_self_iff_false, if_false]
    exact scanBack_eq_mostRecent h
  · intro hname hfind
    have hdt : dispatchTool t imgs h env tc = (.ok { text := noImageText }, []) := by
      simp [dispatchTool, hname, hfind]
    simp [sendMessage, hd, hdt]
  · intro hname hfind
    have hdt : dispatchTool t imgs h env tc = (.ok { text := noImageText }, []) := by
      simp [dispatchTool, hname, hfind]
    simp [sendMessage, hd, hdt]
  · intro img hname hfind
    have hdt2 : (dispatchTool t imgs h env tc).2 =
        [GwCall.flashImage [Part.inlineData img, Part.text (editPromptText tc.args.prompt)]] := by
      simp [dispatchTool, hname, hfind, okMap_snd, executeEditImage_snd]
    rw [hsnd, hdt2]
  · intro img hname hfind
    have hdt2 : (dispatchTool t imgs h env tc).2 =
        [GwCall.flashImage [Part.inlineData img,
          Part.text (resizePromptText tc.args.aspectRatio)]] := by
      simp [dispatchTool, hname, hfind, okMap_snd, resizeImage_snd]
    rw [hsnd, hdt2]
  · intro hname himgs
    have hlen0 : imgs.length ≠ 0 := by simpa [List.length_eq_zero] using himgs
    have hdt2 : (dispatchTool t imgs h env tc).2 =
        [GwCall.flashImage (imgs.map Part.inlineData
          ++ [Part.text (referencePromptText tc.args.prompt)])] := by
      simp [dispatchTool, hname, hlen0, okMap_snd,
        generateFromReference_snd tc.args.prompt imgs env hlen0]
    rw [hsnd, hdt2]
  · intro img hname himgs hfind
    subst himgs
    have hlen1 : ([img] : List ImageBlob).length ≠ 0 := by simp
    have hdt2 : (dispatchTool t [] h env tc).2 =
        [GwCall.flashImage [Part.inlineData img,
          Part.text (referencePromptText tc.args.prompt)]] := by
      simp [dispatchTool, hname, hfind, okMap_snd,
        generateFromReference_snd tc.args.prompt [img] env hlen1]
    rw [hsnd, hdt2]
  · intro hname himgs hfind
    subst himgs
    have hdt : dispatchTool t [] h env tc = (.ok { text := uploadFaceText }, []) := by
      simp [dispatchTool, hname, hfind]
    simp [sendMessage, hd, hdt]

/-- Witness for C6: a concrete `resizeImage` dispatch with no image in the
turn or the history fails with the upload request and performs only the
tool-selection gateway call. -/
theorem image_dependent_target_resolution_witness :
    sendMessage "resize it" [] [] envResizeTool
      = ({ text := noImageText }, [GwCall.toolSelect [userTurn "resize it" []]]) :=
  (image_dependent_target_resolution "resize it" [] [] envResizeTool
    ⟨none, [⟨"resizeImage", ⟨"", "", "16:9"⟩⟩]⟩
    ⟨"resizeImage", ⟨"", "", "16:9"⟩⟩ [] rfl rfl).2.2.2.1 rfl rfl

/-- Witness for C10: a concrete backend response with text and no image
part yields empty-image successes on both paths. -/
theorem flash_no_image_yields_empty_success_witness :
    (executeEditImage "make it red" ⟨"imgdata", "image/png"⟩ envNoImg).1
        = .ok ⟨"", "nope", "make it red"⟩
    ∧ (generateFromReference "make it red" [⟨"imgdata", "image/png"⟩] envNoImg).1
        = .ok ⟨"", "nope", "make it red"⟩ :=
  flash_no_image_yields_empty_success "make it red" ⟨"imgdata", "image/png"⟩
    [⟨"imgdata", "image/png"⟩] envNoImg ⟨some "nope", []⟩ ⟨some "nope", []⟩
    rfl rfl (by decide) rfl rfl

end SparkAI
